import Mathlib

/-!
Verification development for the Floral-V1 reliability/dispatch core.

The definitions below are a shallow embedding of the Python source:

* `floral_v1/core/sizing/engine.py` — analytical k-out-of-n sizing
  (`k_out_of_n_availability`, `estimate_chp_availability`, `size_chp_fleet`);
* `floral_v1/core/des/des_core.py` — the hourly monitor/dispatch step of
  `InteractivePowerSystem` (`_is_scheduled_outage`, effective-state
  resolution, PV -> BESS -> CHP merit-order dispatch, SoC integration);
* `floral_v1/core/des/des_engine.py` — `compute_diagnostics`.

Real arithmetic is embedded in `ℚ` (the Python code uses floats; every
constant appearing in the modelled code paths is an exact decimal, and the
claims are stated up to floating tolerance).  Python ints are `ℤ` where the
source can produce negatives (schedule fields) and `ℕ` for loop counters,
counts and hours.  The daylight-irradiance sinusoid `pv_profile` (which uses
`np.sin`) enters the hourly step only through its value for the current
hour, so the step takes that value as an input parameter `pv_norm`.
-/

namespace Floral

/-! ## Sizing engine (`floral_v1/core/sizing/engine.py`) -/

/-- `DEFAULT_CHP_SIZE_MW`/`MTBF_CHP` constants of the sizing module. -/
def MTBF_CHP : ℚ := 12000

/-- `estimate_chp_availability`: single-CHP steady-state availability from the
MTTR mixture (`0.4·mean(8,24) + 0.3·mean(120,300) + 0.3·mean(600,1000)`). -/
def estimate_chp_availability : ℚ :=
  let minor_mean : ℚ := (8 + 24) / 2
  let moderate_mean : ℚ := (120 + 300) / 2
  let major_mean : ℚ := (600 + 1000) / 2
  let expected_mttr : ℚ := 0.4 * minor_mean + 0.3 * moderate_mean + 0.3 * major_mean
  MTBF_CHP / (MTBF_CHP + expected_mttr)

/-- `k_out_of_n_availability(n, k, availability)`: returns `0.0` when `k > n`,
otherwise the binomial tail `Σ_{i=k}^{n} C(n,i)·a^i·(1-a)^(n-i)`
(the Python `sum` ranges over `range(k, n + 1)`). -/
def k_out_of_n_availability (n k : ℕ) (a : ℚ) : ℚ :=
  if k > n then 0
  else ∑ i in Finset.Icc k n, (n.choose i : ℚ) * a ^ i * (1 - a) ^ (n - i)

/-- `k = int(ceil(target_load_mw / chp_size_mw))` of `size_chp_fleet`. -/
def reqUnits (target_load_mw chp_size_mw : ℚ) : ℕ :=
  (Int.ceil (target_load_mw / chp_size_mw)).toNat

/-- The `while` loop of `size_chp_fleet`: starting from `n`, increment while
the k-out-of-n availability misses the target and `n < 200`. -/
def sizeLoop (k : ℕ) (a target : ℚ) (n : ℕ) : ℕ :=
  if h : k_out_of_n_availability n k a < target ∧ n < 200 then
    sizeLoop k a target (n + 1)
  else n
termination_by 200 - n
decreasing_by
  obtain ⟨-, h2⟩ := h
  omega

/-- `size_chp_fleet(target_load_mw, target_availability, chp_size_mw)`;
`none` models the `ValueError` raised on non-positive load or unit size. -/
def size_chp_fleet (target_load_mw target_availability chp_size_mw : ℚ) :
    Option (ℕ × ℕ) :=
  if target_load_mw ≤ 0 then none
  else if chp_size_mw ≤ 0 then none
  else
    let k := reqUnits target_load_mw chp_size_mw
    some (k, sizeLoop k estimate_chp_availability target_availability (max (k + 2) k))

/-! ### Basic facts about the sizing search -/

theorem sizeLoop_ge_aux (k : ℕ) (a t : ℚ) :
    ∀ fuel n, 200 - n ≤ fuel → n ≤ sizeLoop k a t n := by
  intro fuel
  induction fuel with
  | zero =>
    intro n hn
    rw [sizeLoop]
    split
    · rename_i h
      omega
    · exact le_rfl
  | succ f ih =>
    intro n hn
    rw [sizeLoop]
    split
    · rename_i h
      have h2 := h.2
      exact le_trans (Nat.le_succ n) (ih (n + 1) (by omega))
    · exact le_rfl

theorem sizeLoop_ge (k : ℕ) (a t : ℚ) (n : ℕ) : n ≤ sizeLoop k a t n :=
  sizeLoop_ge_aux k a t (200 - n) n le_rfl

theorem sizeLoop_le_max_aux (k : ℕ) (a t : ℚ) :
    ∀ fuel n, 200 - n ≤ fuel → sizeLoop k a t n ≤ max n 200 := by
  intro fuel
  induction fuel with
  | zero =>
    intro n hn
    rw [sizeLoop]
    split
    · rename_i h
      omega
    · exact le_max_left n 200
  | succ f ih =>
    intro n hn
    rw [sizeLoop]
    split
    · rename_i h
      have h2 := h.2
      have := ih (n + 1) (by omega)
      have hm : max (n + 1) 200 = 200 := by omega
      rw [hm] at this
      exact le_trans this (le_max_right n 200)
    · exact le_max_left n 200

theorem sizeLoop_le_max (k : ℕ) (a t : ℚ) (n : ℕ) :
    sizeLoop k a t n ≤ max n 200 :=
  sizeLoop_le_max_aux k a t (200 - n) n le_rfl

/-! ### Monotonicity of the binomial tail in `n` (for C3) -/

/-- Reindexed form of the binomial tail: `tailD K D a = Σ_{i=0}^{D} C(K+D, K+i)
· a^(K+i) · (1-a)^(D-i)`, i.e. `k_out_of_n_availability (K+D) K a` with the
subtraction `n - k` made explicit so that all `ℕ` subtractions are benign. -/
def tailD (K D : ℕ) (a : ℚ) : ℚ :=
  ∑ i in Finset.range (D + 1), ((K + D).choose (K + i) : ℚ) * a ^ (K + i) * (1 - a) ^ (D - i)

theorem k_out_of_n_eq_tailD (n K : ℕ) (a : ℚ) (h : K ≤ n) :
    k_out_of_n_availability n K a = tailD K (n - K) a := by
  unfold k_out_of_n_availability tailD
  rw [if_neg (by omega)]
  rw [show Finset.Icc K n = Finset.Ico K (n + 1) by rw [Nat.Ico_succ_right]]
  rw [Finset.sum_Ico_eq_sum_range]
  have hlen : n + 1 - K = n - K + 1 := by omega
  rw [hlen]
  refine Finset.sum_congr rfl ?_
  intro i hi
  rw [Finset.mem_range] at hi
  have h1 : K + (n - K) = n := by omega
  have h2 : n - (K + i) = n - K - i := by omega
  rw [h1, h2]

/-- One-step identity: adding a unit to the fleet adds the nonnegative term
`C(K+D, K-1) · a^K · (1-a)^(D+1)` to the K-out-of-n tail (stated with
`K = k+1`, `n = K + D`). -/
theorem tailD_succ (k D : ℕ) (a : ℚ) :
    tailD (k + 1) (D + 1) a =
      tailD (k + 1) D a + ((k + 1 + D).choose k : ℚ) * a ^ (k + 1) * (1 - a) ^ (D + 1) := by
  unfold tailD
  have hsplit :
      ∑ i in Finset.range (D + 1 + 1),
          ((k + 1 + (D + 1)).choose (k + 1 + i) : ℚ) * a ^ (k + 1 + i) * (1 - a) ^ (D + 1 - i) =
        (∑ i in Finset.range (D + 2),
          ((k + 1 + D).choose (k + i) : ℚ) * a ^ (k + 1 + i) * (1 - a) ^ (D + 1 - i)) +
        ∑ i in Finset.range (D + 2),
          ((k + 1 + D).choose (k + 1 + i) : ℚ) * a ^ (k + 1 + i) * (1 - a) ^ (D + 1 - i) := by
    rw [show D + 1 + 1 = D + 2 by omega, ← Finset.sum_add_distrib]
    refine Finset.sum_congr rfl ?_
    intro i hi
    have hch : (k + 1 + (D + 1)).choose (k + 1 + i) =
        (k + 1 + D).choose (k + i) + (k + 1 + D).choose (k + 1 + i) := by
      rw [show k + 1 + (D + 1) = (k + 1 + D) + 1 by omega,
        show k + 1 + i = (k + i) + 1 by omega]
      exact Nat.choose_succ_succ (k + 1 + D) (k + i)
    rw [hch]
    push_cast
    ring
  rw [hsplit]
  -- The second sum: its top term (i = D+1) vanishes, the rest is (1-a) times
  -- the D-tail.
  have hB :
      ∑ i in Finset.range (D + 2),
          ((k + 1 + D).choose (k + 1 + i) : ℚ) * a ^ (k + 1 + i) * (1 - a) ^ (D + 1 - i) =
        (1 - a) * ∑ i in Finset.range (D + 1),
          ((k + 1 + D).choose (k + 1 + i) : ℚ) * a ^ (k + 1 + i) * (1 - a) ^ (D - i) := by
    rw [show D + 2 = (D + 1) + 1 by omega, Finset.sum_range_succ]
    have hzero : (k + 1 + D).choose (k + 1 + (D + 1)) = 0 :=
      Nat.choose_eq_zero_of_lt (by omega)
    rw [hzero]
    push_cast
    rw [Finset.mul_sum]
    rw [show ((0 : ℚ) * a ^ (k + 1 + (D + 1)) * (1 - a) ^ (D - D)) = 0 by ring, add_zero]
    refine Finset.sum_congr rfl ?_
    intro i hi
    rw [Finset.mem_range] at hi
    have hpow : (1 - a) ^ (D + 1 - i) = (1 - a) * (1 - a) ^ (D - i) := by
      rw [show D + 1 - i = (D - i) + 1 by omega, pow_succ]
      ring
    rw [hpow]
    ring
  rw [hB]
  -- The first sum: its bottom term (i = 0) is the extra unit's contribution,
  -- the rest is a times the D-tail.
  have hA :
      ∑ i in Finset.range (D + 2),
          ((k + 1 + D).choose (k + i) : ℚ) * a ^ (k + 1 + i) * (1 - a) ^ (D + 1 - i) =
        (a * ∑ i in Finset.range (D + 1),
          ((k + 1 + D).choose (k + 1 + i) : ℚ) * a ^ (k + 1 + i) * (1 - a) ^ (D - i)) +
        ((k + 1 + D).choose k : ℚ) * a ^ (k + 1) * (1 - a) ^ (D + 1) := by
    rw [show D + 2 = (D + 1) + 1 by omega, Finset.sum_range_succ']
    rw [Finset.mul_sum]
    have hterm :
        ((k + 1 + D).choose (k + 0) : ℚ) * a ^ (k + 1 + 0) * (1 - a) ^ (D + 1 - 0) =
          ((k + 1 + D).choose k : ℚ) * a ^ (k + 1) * (1 - a) ^ (D + 1) := by
      norm_num
    rw [hterm]
    congr 1
    refine Finset.sum_congr rfl ?_
    intro i hi
    rw [Finset.mem_range] at hi
    have h1 : k + (i + 1) = k + 1 + i := by omega
    have h2 : D + 1 - (i + 1) = D - i := by omega
    have h3 : a ^ (k + 1 + (i + 1)) = a * a ^ (k + 1 + i) := by
      rw [show k + 1 + (i + 1) = (k + 1 + i) + 1 by omega, pow_succ]
      ring
    rw [h1, h2, h3]
    ring
  rw [hA]
  ring

/-- The extra term is nonnegative for `a ∈ [0,1]`, so one more unit never
hurts. -/
theorem tailD_mono_succ (k D : ℕ) (a : ℚ) (h0 : 0 ≤ a) (h1 : a ≤ 1) :
    tailD (k + 1) D a ≤ tailD (k + 1) (D + 1) a := by
  rw [tailD_succ]
  have hterm : 0 ≤ ((k + 1 + D).choose k : ℚ) * a ^ (k + 1) * (1 - a) ^ (D + 1) := by
    apply mul_nonneg
    apply mul_nonneg
    · positivity
    · exact pow_nonneg h0 _
    · exact pow_nonneg (by linarith) _
  linarith

theorem tailD_mono (k : ℕ) (a : ℚ) (h0 : 0 ≤ a) (h1 : a ≤ 1) :
    ∀ D E : ℕ, D ≤ E → tailD (k + 1) D a ≤ tailD (k + 1) E a := by
  intro D E hDE
  induction E with
  | zero =>
    have : D = 0 := by omega
    rw [this]
  | succ e ih =>
    rcases Nat.lt_or_ge D (e + 1) with hlt | hge
    · exact le_trans (ih (by omega)) (tailD_mono_succ k e a h0 h1)
    · have : D = e + 1 := by omega
      rw [this]

/-- C3: for every fixed `k ≥ 1` and fixed single-unit availability
`a ∈ (0,1)`, `k_out_of_n_availability (n, k, a)` is non-decreasing as `n`
increases from `k`: increasing the installed count never decreases the
k-out-of-n probability. -/
theorem c3_k_out_of_n_monotone (k m n : ℕ) (a : ℚ) (hk : 1 ≤ k) (h0 : 0 < a)
    (h1 : a < 1) (hkm : k ≤ m) (hmn : m ≤ n) :
    k_out_of_n_availability m k a ≤ k_out_of_n_availability n k a := by
  obtain ⟨k0, rfl⟩ : ∃ k0, k = k0 + 1 := ⟨k - 1, by omega⟩
  rw [k_out_of_n_eq_tailD m (k0 + 1) a hkm,
    k_out_of_n_eq_tailD n (k0 + 1) a (le_trans hkm hmn)]
  exact tailD_mono k0 a (le_of_lt h0) (le_of_lt h1) (m - (k0 + 1)) (n - (k0 + 1))
    (by omega)

/-- Witness for C3 at `k = 1`, `a = 1/2`, `m = 1`, `n = 2`. -/
theorem c3_k_out_of_n_monotone_witness :
    (1 ≤ 1 ∧ (0 : ℚ) < 1 / 2 ∧ (1 : ℚ) / 2 < 1 ∧ 1 ≤ 1 ∧ 1 ≤ 2) ∧
      k_out_of_n_availability 1 1 (1 / 2) ≤ k_out_of_n_availability 2 1 (1 / 2) :=
  ⟨⟨le_rfl, by norm_num, by norm_num, le_rfl, by norm_num⟩,
    c3_k_out_of_n_monotone 1 1 2 (1 / 2) le_rfl (by norm_num) (by norm_num) le_rfl
      (by norm_num)⟩

/-- C4 counterexample: at `target_load = 600`, `chp_size = 2.5`
(so `k = 240`), the search starts at `n = k + 2 = 242 > 200`; the `while`
guard `n < 200` is false immediately and `size_chp_fleet` returns
`n = 242`, violating the claimed bound `n ≤ 200`. -/
theorem c4_cap_counterexample :
    size_chp_fleet 600 (999 / 1000) (5 / 2) = some (240, 242) ∧ ¬ (242 ≤ 200) := by
  constructor
  · have hk : reqUnits 600 (5 / 2) = 240 := by
      unfold reqUnits
      norm_num
      decide
    have hnot : ¬ (k_out_of_n_availability 242 240 estimate_chp_availability <
        999 / 1000 ∧ 242 < 200) := by
      rintro ⟨-, h⟩
      omega
    have hloop : sizeLoop 240 estimate_chp_availability (999 / 1000) 242 = 242 := by
      rw [sizeLoop, dif_neg hnot]
    simp only [size_chp_fleet, hk]
    rw [if_neg (by norm_num), if_neg (by norm_num)]
    rw [show max (240 + 2) 240 = 242 by decide, hloop]
  · norm_num

/-- C4 (amended): for positive target load and unit rating and any target
availability, `size_chp_fleet` returns `(k, n)` with `n ≥ k`; the search
starts at `n = max(k+2, k)` and increments by one, and the returned `n` is at
most `max (k+2) 200` — in particular `n ≤ 200` whenever the starting point
`k + 2` does not already exceed the cap (`k ≤ 198`). -/
theorem c4_size_chp_fleet_bounds (L t s : ℚ) (hL : 0 < L) (hs : 0 < s) :
    ∃ k n, size_chp_fleet L t s = some (k, n) ∧ k ≤ n ∧ n ≤ max (k + 2) 200 ∧
      (k ≤ 198 → n ≤ 200) := by
  have hmax : max (reqUnits L s + 2) (reqUnits L s) = reqUnits L s + 2 :=
    max_eq_left (by omega)
  refine ⟨reqUnits L s,
    sizeLoop (reqUnits L s) estimate_chp_availability t (reqUnits L s + 2),
    ?_, ?_, ?_, ?_⟩
  · simp only [size_chp_fleet, hmax]
    rw [if_neg (by linarith), if_neg (by linarith)]
  · exact le_trans (Nat.le_add_right (reqUnits L s) 2)
      (sizeLoop_ge (reqUnits L s) estimate_chp_availability t (reqUnits L s + 2))
  · exact sizeLoop_le_max (reqUnits L s) estimate_chp_availability t
      (reqUnits L s + 2)
  · intro hk
    have h2 := sizeLoop_le_max (reqUnits L s) estimate_chp_availability t
      (reqUnits L s + 2)
    rwa [max_eq_right (by omega)] at h2

/-- Witness for the amended C4 at `target_load = 1`, `target = 0`,
`chp_size = 5/2`. -/
theorem c4_size_chp_fleet_bounds_witness :
    ((0 : ℚ) < 1 ∧ (0 : ℚ) < 5 / 2) ∧
      ∃ k n, size_chp_fleet 1 0 (5 / 2) = some (k, n) ∧ k ≤ n ∧
        n ≤ max (k + 2) 200 ∧ (k ≤ 198 → n ≤ 200) :=
  ⟨⟨by norm_num, by norm_num⟩,
    c4_size_chp_fleet_bounds 1 0 (5 / 2) (by norm_num) (by norm_num)⟩

/-- C10: for every `n`, every availability and every `k > n`,
`k_out_of_n_availability` returns exactly `0` (the explicit `if k > n`
guard of the source) instead of raising. -/
theorem c10_k_gt_n_gives_zero (n k : ℕ) (a : ℚ) (h : n < k) :
    k_out_of_n_availability n k a = 0 := by
  unfold k_out_of_n_availability
  rw [if_pos h]

/-- Witness for C10 at `n = 1`, `k = 2`, `a = 9/10`. -/
theorem c10_k_gt_n_gives_zero_witness :
    1 < 2 ∧ k_out_of_n_availability 1 2 (9 / 10) = 0 :=
  ⟨by norm_num, c10_k_gt_n_gives_zero 1 2 (9 / 10) (by norm_num)⟩

/-! ## DES core (`floral_v1/core/des/des_core.py`)

`InteractivePowerSystem.monitor` runs once per simulated hour.  The state it
reads (raw stochastic up/down flags, the BESS state of charge) and the
architecture constants (`ARCH`, `NUM_LINES`, `MIN_LINES_REQUIRED`) are
modelled below; one execution of the `try:` body of `monitor` is the pure
function `monitorStep`. -/

/-- `asset_type` of a schedule event (`"chp" | "pv" | "bess"`). -/
inductive AssetType
  | chp
  | pv
  | bess
deriving DecidableEq, Repr

/-- `sim_mode` (`"random" | "hybrid" | "schedule"`), the three values
`reset_simulation` can install (`SimMode` in `des_engine.py`). -/
inductive SimMode
  | random
  | hybrid
  | schedule
deriving DecidableEq, Repr

/-- One entry of `sim_schedule` (well-formed: the fields are the ints the
code converts them to; malformed entries are skipped by the source and are
outside the claims considered here). -/
structure ScheduledOutageEvent where
  asset_type : AssetType
  asset_index : ℤ
  start_hour : ℤ
  duration_hours : ℤ
deriving DecidableEq, Repr

/-- `InteractivePowerSystem._is_scheduled_outage(asset_type, display_index,
hour)`: an event matches if its type matches, its (1-based) index matches
(for `bess` the index must be `1`), its duration is positive and
`start_hour ≤ hour < start_hour + duration_hours`. -/
def isScheduledOutage (schedule : List ScheduledOutageEvent) (atype : AssetType)
    (displayIndex : ℤ) (hour : ℕ) : Bool :=
  schedule.any fun ev =>
    decide (ev.asset_type = atype) &&
    (if atype = AssetType.bess then decide (ev.asset_index = 1)
     else decide (ev.asset_index = displayIndex)) &&
    decide (0 < ev.duration_hours) &&
    decide (ev.start_hour ≤ (hour : ℤ)) &&
    decide ((hour : ℤ) < ev.start_hour + ev.duration_hours)

/-- Effective CHP line state for dispatch (`monitor`, lines 362-375): in
`schedule` mode the stochastic baseline is replaced by `True`; a matching
scheduled outage then forces the line down.  `i` is the 0-based line index,
the schedule uses 1-based display indices. -/
def effectiveLineState (mode : SimMode) (schedule : List ScheduledOutageEvent)
    (rawUp : Bool) (i : ℕ) (hour : ℕ) : Bool :=
  let base := if mode = SimMode.schedule then true else rawUp
  if isScheduledOutage schedule AssetType.chp ((i : ℤ) + 1) hour then false else base

/-- Effective PV block state (`monitor`, lines 382-391), same resolution as
for CHP lines. -/
def effectivePvState (mode : SimMode) (schedule : List ScheduledOutageEvent)
    (rawUp : Bool) (i : ℕ) (hour : ℕ) : Bool :=
  let base := if mode = SimMode.schedule then true else rawUp
  if isScheduledOutage schedule AssetType.pv ((i : ℤ) + 1) hour then false else base

/-- `ARCH` plus the derived `NUM_LINES` / `MIN_LINES_REQUIRED` constants. -/
structure Arch where
  num_lines : ℕ
  engine_rating_mw : ℚ
  load_mw : ℚ
  pv_blocks : ℕ
  pv_block_rating_mw : ℚ
  bess_power_mw : ℚ
  bess_energy_mwh : ℚ
  bess_pcs_units : ℕ
  bess_string_groups : ℕ
  min_lines_required : ℕ
deriving DecidableEq, Repr

/-- The raw stochastic up/down flags read by `monitor` (mutated elsewhere by
the per-asset failure processes; the hourly step only reads them). -/
structure RawStates where
  line_states : List Bool
  pv_states : List Bool
  pcs_states : List Bool
  string_states : List Bool
  swbd_a : Bool
  swbd_b : Bool
  gas_main : Bool
  gas_tank : Bool
deriving DecidableEq, Repr

/-- Effective `(pcs_up, str_up)` counts (`monitor`, lines 397-409): counts of
raw up units, replaced by the installed counts in `schedule` mode, then both
zeroed while a scheduled whole-BESS outage is active. -/
def effectiveBessCounts (arch : Arch) (mode : SimMode)
    (schedule : List ScheduledOutageEvent) (pcsUpRaw strUpRaw : ℕ) (hour : ℕ) :
    ℕ × ℕ :=
  let pcs := if mode = SimMode.schedule then arch.bess_pcs_units else pcsUpRaw
  let strg := if mode = SimMode.schedule then arch.bess_string_groups else strUpRaw
  if isScheduledOutage schedule AssetType.bess 1 hour then (0, 0) else (pcs, strg)

/-- Derated maximum BESS power
(`ARCH["bess_power_mw"] * (pcs_up / max(1, ARCH["bess_pcs_units"]))`). -/
def bessPmaxOf (arch : Arch) (pcs_up : ℕ) : ℚ :=
  arch.bess_power_mw * ((pcs_up : ℚ) / ((max 1 arch.bess_pcs_units : ℕ) : ℚ))

/-- Derated BESS energy capacity
(`ARCH["bess_energy_mwh"] * (str_up / max(1, ARCH["bess_string_groups"]))`). -/
def bessEmaxOf (arch : Arch) (str_up : ℕ) : ℚ :=
  arch.bess_energy_mwh * ((str_up : ℚ) / ((max 1 arch.bess_string_groups : ℕ) : ℚ))

/-- `bess_dis = min(rem, bess_pmax, soc)` when `bess_pmax > 0 and soc > 0`,
else `0.0`. -/
def bessDisOf (rem1 pmax soc1 : ℚ) : ℚ :=
  if 0 < pmax ∧ 0 < soc1 then min rem1 (min pmax soc1) else 0

/-- Per-line CHP setpoint: even split capped at the rating when load remains,
the 10%-of-rating idle ("low turndown for colour") when PV+BESS covered the
load, `0` when no line is up (the `chp_out` dict stays empty). -/
def chpPerOf (rating : ℚ) (online : ℕ) (rem2 : ℚ) : ℚ :=
  if online ≠ 0 then
    (if 0 < rem2 then min rating (rem2 / (online : ℚ)) else 0.1 * rating)
  else 0

/-- `bess_ch = min(pv_surplus, bess_pmax, bess_emax - soc)` when
`pv_surplus > 0 and bess_pmax > 0 and soc < bess_emax`, else `0.0`. -/
def bessChOf (surplus pmax emax soc2 : ℚ) : ℚ :=
  if 0 < surplus ∧ 0 < pmax ∧ soc2 < emax then min surplus (min pmax (emax - soc2))
  else 0

/-- Everything one iteration of `monitor` computes and logs for the hour. -/
structure StepResult where
  effective_line_states : List Bool
  online : ℕ
  effective_pv_states : List Bool
  pv_up : ℕ
  pv_possible : ℚ
  pcs_up : ℕ
  str_up : ℕ
  bess_pmax : ℚ
  bess_emax : ℚ
  soc_clamped : ℚ
  pv_gen : ℚ
  bess_dis : ℚ
  rem_after_bess : ℚ
  chp_per : ℚ
  chp_out : List ℚ
  chp_gen : ℚ
  bess_ch : ℚ
  soc_out : ℚ
  total_power : ℚ
  unserved : ℚ
  path_ok : Bool
  outage : Bool
  below_load : Bool
deriving Repr

/-- One iteration of the `monitor` loop body (`des_core.py`, lines 353-479):
effective-state resolution, SoC clamp to the derated capacity, merit-order
dispatch PV -> BESS -> CHP, PV-surplus charging, unserved energy and the
path/outage flags.  `pv_norm` is `pv_profile(hour)`, supplied as an input
because the daylight sinusoid is transcendental; `soc` is `self.bess_soc` on
entry. -/
def monitorStep (arch : Arch) (mode : SimMode)
    (schedule : List ScheduledOutageEvent) (hour : ℕ) (raw : RawStates)
    (pv_norm : ℚ) (soc : ℚ) : StepResult :=
  let load := arch.load_mw
  let effLines := (List.range arch.num_lines).map fun i =>
    effectiveLineState mode schedule (raw.line_states.getD i false) i hour
  let online := effLines.countP fun b => b
  let effPv := (List.range arch.pv_blocks).map fun i =>
    effectivePvState mode schedule (raw.pv_states.getD i false) i hour
  let pv_up := effPv.countP fun b => b
  let pv_possible := ((pv_up : ℚ) * arch.pv_block_rating_mw) * pv_norm
  let counts := effectiveBessCounts arch mode schedule
    (raw.pcs_states.countP fun b => b) (raw.string_states.countP fun b => b) hour
  let bess_pmax := bessPmaxOf arch counts.1
  let bess_emax := bessEmaxOf arch counts.2
  let soc1 := min soc bess_emax
  let pv_gen := min load pv_possible
  let rem1 := load - pv_gen
  let bess_dis := bessDisOf rem1 bess_pmax soc1
  let soc2 := soc1 - bess_dis
  let rem2 := rem1 - bess_dis
  let per := chpPerOf arch.engine_rating_mw online rem2
  let chp_out := effLines.map fun up => if up then per else 0
  let chp_gen := per * (online : ℚ)
  let pv_surplus := max 0 (pv_possible - pv_gen)
  let bess_ch := bessChOf pv_surplus bess_pmax bess_emax soc2
  let soc3 := soc2 + bess_ch
  let total_power := pv_gen + bess_dis + chp_gen
  let unserved := max 0 (load - total_power)
  let path_ok := (raw.swbd_a || raw.swbd_b) && (raw.gas_main || raw.gas_tank) &&
    decide (arch.min_lines_required ≤ online)
  let outage := !path_ok || decide ((1 : ℚ) / 1000000 < unserved)
  let below_load := decide (total_power < load - 1 / 1000000)
  { effective_line_states := effLines
    online := online
    effective_pv_states := effPv
    pv_up := pv_up
    pv_possible := pv_possible
    pcs_up := counts.1
    str_up := counts.2
    bess_pmax := bess_pmax
    bess_emax := bess_emax
    soc_clamped := soc1
    pv_gen := pv_gen
    bess_dis := bess_dis
    rem_after_bess := rem2
    chp_per := per
    chp_out := chp_out
    chp_gen := chp_gen
    bess_ch := bess_ch
    soc_out := soc3
    total_power := total_power
    unserved := unserved
    path_ok := path_ok
    outage := outage
    below_load := below_load }

/-- The per-hour inputs the monitor reads besides the carried SoC: the hour,
the raw stochastic flags and the irradiance fraction for the hour. -/
structure HourInput where
  hour : ℕ
  raw : RawStates
  pv_norm : ℚ
deriving Repr

/-- The `bess_soc_hist` log: run `monitorStep` hour after hour, threading the
state of charge, recording the SoC logged at the end of each hour. -/
def socTrace (arch : Arch) (mode : SimMode)
    (schedule : List ScheduledOutageEvent) : List HourInput → ℚ → List ℚ
  | [], _ => []
  | inp :: rest, soc =>
    let r := monitorStep arch mode schedule inp.hour inp.raw inp.pv_norm soc
    r.soc_out :: socTrace arch mode schedule rest r.soc_out

/-! ### Definitional equations between the logged fields of one monitor step -/

section StepAccessors

variable (arch : Arch) (mode : SimMode) (schedule : List ScheduledOutageEvent)
variable (hour : ℕ) (raw : RawStates) (pv_norm soc : ℚ)

theorem monitorStep_online :
    (monitorStep arch mode schedule hour raw pv_norm soc).online =
      (monitorStep arch mode schedule hour raw pv_norm soc).effective_line_states.countP
        (fun b => b) := rfl

theorem monitorStep_pv_gen :
    (monitorStep arch mode schedule hour raw pv_norm soc).pv_gen =
      min arch.load_mw (monitorStep arch mode schedule hour raw pv_norm soc).pv_possible := rfl

theorem monitorStep_str_up :
    (monitorStep arch mode schedule hour raw pv_norm soc).str_up =
      (effectiveBessCounts arch mode schedule (raw.pcs_states.countP fun b => b)
        (raw.string_states.countP fun b => b) hour).2 := rfl

theorem monitorStep_bess_emax :
    (monitorStep arch mode schedule hour raw pv_norm soc).bess_emax =
      bessEmaxOf arch (monitorStep arch mode schedule hour raw pv_norm soc).str_up := rfl

theorem monitorStep_soc_clamped :
    (monitorStep arch mode schedule hour raw pv_norm soc).soc_clamped =
      min soc (monitorStep arch mode schedule hour raw pv_norm soc).bess_emax := rfl

theorem monitorStep_bess_dis :
    (monitorStep arch mode schedule hour raw pv_norm soc).bess_dis =
      bessDisOf (arch.load_mw - (monitorStep arch mode schedule hour raw pv_norm soc).pv_gen)
        (monitorStep arch mode schedule hour raw pv_norm soc).bess_pmax
        (monitorStep arch mode schedule hour raw pv_norm soc).soc_clamped := rfl

theorem monitorStep_rem_after_bess :
    (monitorStep arch mode schedule hour raw pv_norm soc).rem_after_bess =
      arch.load_mw - (monitorStep arch mode schedule hour raw pv_norm soc).pv_gen -
        (monitorStep arch mode schedule hour raw pv_norm soc).bess_dis := rfl

theorem monitorStep_chp_per :
    (monitorStep arch mode schedule hour raw pv_norm soc).chp_per =
      chpPerOf arch.engine_rating_mw
        (monitorStep arch mode schedule hour raw pv_norm soc).online
        (monitorStep arch mode schedule hour raw pv_norm soc).rem_after_bess := rfl

theorem monitorStep_chp_out :
    (monitorStep arch mode schedule hour raw pv_norm soc).chp_out =
      (monitorStep arch mode schedule hour raw pv_norm soc).effective_line_states.map
        (fun up => if up then (monitorStep arch mode schedule hour raw pv_norm soc).chp_per
          else 0) := rfl

theorem monitorStep_chp_gen :
    (monitorStep arch mode schedule hour raw pv_norm soc).chp_gen =
      (monitorStep arch mode schedule hour raw pv_norm soc).chp_per *
        ((monitorStep arch mode schedule hour raw pv_norm soc).online : ℚ) := rfl

theorem monitorStep_bess_ch :
    (monitorStep arch mode schedule hour raw pv_norm soc).bess_ch =
      bessChOf
        (max 0 ((monitorStep arch mode schedule hour raw pv_norm soc).pv_possible -
          (monitorStep arch mode schedule hour raw pv_norm soc).pv_gen))
        (monitorStep arch mode schedule hour raw pv_norm soc).bess_pmax
        (monitorStep arch mode schedule hour raw pv_norm soc).bess_emax
        ((monitorStep arch mode schedule hour raw pv_norm soc).soc_clamped -
          (monitorStep arch mode schedule hour raw pv_norm soc).bess_dis) := rfl

theorem monitorStep_soc_out :
    (monitorStep arch mode schedule hour raw pv_norm soc).soc_out =
      (monitorStep arch mode schedule hour raw pv_norm soc).soc_clamped -
        (monitorStep arch mode schedule hour raw pv_norm soc).bess_dis +
        (monitorStep arch mode schedule hour raw pv_norm soc).bess_ch := rfl

theorem monitorStep_unserved :
    (monitorStep arch mode schedule hour raw pv_norm soc).unserved =
      max 0 (arch.load_mw -
        ((monitorStep arch mode schedule hour raw pv_norm soc).pv_gen +
          (monitorStep arch mode schedule hour raw pv_norm soc).bess_dis +
          (monitorStep arch mode schedule hour raw pv_norm soc).chp_gen)) := rfl

end StepAccessors

/-! ### Elementary facts about the dispatch components -/

theorem sum_map_ite_count (l : List Bool) (c : ℚ) :
    (l.map fun up => if up then c else 0).sum = ((l.countP fun b => b : ℕ) : ℚ) * c := by
  induction l with
  | nil => simp
  | cons b t ih =>
    cases b
    · simp [List.countP_cons, ih]
    · simp [List.countP_cons, ih]
      ring

theorem bessDisOf_nonneg (rem1 pmax soc1 : ℚ) (h : 0 ≤ rem1) :
    0 ≤ bessDisOf rem1 pmax soc1 := by
  unfold bessDisOf
  split
  · rename_i hcond
    exact le_min h (le_min (le_of_lt hcond.1) (le_of_lt hcond.2))
  · exact le_rfl

theorem bessDisOf_le_rem1 (rem1 pmax soc1 : ℚ) (h : 0 ≤ rem1) :
    bessDisOf rem1 pmax soc1 ≤ rem1 := by
  unfold bessDisOf
  split
  · exact min_le_left _ _
  · exact h

theorem bessDisOf_le_soc1 (rem1 pmax soc1 : ℚ) (h : 0 ≤ soc1) :
    bessDisOf rem1 pmax soc1 ≤ soc1 := by
  unfold bessDisOf
  split
  · exact le_trans (min_le_right _ _) (min_le_right _ _)
  · exact h

theorem bessChOf_nonneg (surplus pmax emax soc2 : ℚ) (h : 0 ≤ surplus) :
    0 ≤ bessChOf surplus pmax emax soc2 := by
  unfold bessChOf
  split
  · rename_i hcond
    exact le_min h (le_min (le_of_lt hcond.2.1) (by linarith [hcond.2.2]))
  · exact le_rfl

theorem bessChOf_le_surplus (surplus pmax emax soc2 : ℚ) (h : 0 ≤ surplus) :
    bessChOf surplus pmax emax soc2 ≤ surplus := by
  unfold bessChOf
  split
  · exact min_le_left _ _
  · exact h

theorem bessChOf_headroom (surplus pmax emax soc2 : ℚ) (h : soc2 ≤ emax) :
    soc2 + bessChOf surplus pmax emax soc2 ≤ emax := by
  unfold bessChOf
  split
  · have := min_le_right surplus (min pmax (emax - soc2))
    have := min_le_right pmax (emax - soc2)
    linarith [le_trans (min_le_right surplus (min pmax (emax - soc2)))
      (min_le_right pmax (emax - soc2))]
  · linarith

theorem chpPerOf_zero (rating : ℚ) (rem2 : ℚ) : chpPerOf rating 0 rem2 = 0 := by
  unfold chpPerOf
  simp

theorem chpPerOf_serving_le (rating : ℚ) (online : ℕ) (rem2 : ℚ)
    (honline : online ≠ 0) (hrem : 0 < rem2) :
    chpPerOf rating online rem2 * (online : ℚ) ≤ rem2 := by
  unfold chpPerOf
  rw [if_pos honline, if_pos hrem]
  have hpos : (0 : ℚ) < (online : ℚ) := by
    exact_mod_cast Nat.pos_of_ne_zero honline
  have hle : min rating (rem2 / (online : ℚ)) ≤ rem2 / (online : ℚ) := min_le_right _ _
  calc min rating (rem2 / (online : ℚ)) * (online : ℚ)
      ≤ (rem2 / (online : ℚ)) * (online : ℚ) := by
        exact mul_le_mul_of_nonneg_right hle (le_of_lt hpos)
    _ = rem2 := by field_simp

theorem chpPerOf_idle (rating : ℚ) (online : ℕ) (rem2 : ℚ)
    (honline : online ≠ 0) (hrem : ¬ 0 < rem2) :
    chpPerOf rating online rem2 = 0.1 * rating := by
  unfold chpPerOf
  rw [if_pos honline, if_neg hrem]

/-- After PV and BESS have served what they can, the remaining load is never
negative (PV serves `min(rem, pv_possible)`, BESS at most the remainder). -/
theorem monitorStep_rem_nonneg (arch : Arch) (mode : SimMode)
    (schedule : List ScheduledOutageEvent) (hour : ℕ) (raw : RawStates)
    (pv_norm soc : ℚ) :
    0 ≤ (monitorStep arch mode schedule hour raw pv_norm soc).rem_after_bess := by
  have hpv : (monitorStep arch mode schedule hour raw pv_norm soc).pv_gen ≤
      arch.load_mw := by
    rw [monitorStep_pv_gen]
    exact min_le_left _ _
  have hdis : (monitorStep arch mode schedule hour raw pv_norm soc).bess_dis ≤
      arch.load_mw - (monitorStep arch mode schedule hour raw pv_norm soc).pv_gen := by
    rw [monitorStep_bess_dis]
    exact bessDisOf_le_rem1 _ _ _ (by linarith)
  rw [monitorStep_rem_after_bess]
  linarith

/-- The total CHP output logged in `chp_out` for the hour equals `chp_gen`
(every healthy line is assigned the same setpoint). -/
theorem monitorStep_chp_sum (arch : Arch) (mode : SimMode)
    (schedule : List ScheduledOutageEvent) (hour : ℕ) (raw : RawStates)
    (pv_norm soc : ℚ) :
    (monitorStep arch mode schedule hour raw pv_norm soc).chp_out.sum =
      (monitorStep arch mode schedule hour raw pv_norm soc).chp_gen := by
  rw [monitorStep_chp_out, monitorStep_chp_gen, sum_map_ite_count,
    ← monitorStep_online]
  ring

/-- C1 (amended): every monitored hour satisfies the energy balance
`pv_served + bess_served + chp_served + unserved = load` — where `chp_served`
is the total CHP output logged for the hour — EXCEPT in the hours where PV
plus BESS already cover the whole load while CHP lines are up: there each up
line is additionally logged with the 10%-of-rating idle setpoint
("low turndown for colour"), and the sum equals `load + chp_gen` instead. -/
theorem c1_energy_balance (arch : Arch) (mode : SimMode)
    (schedule : List ScheduledOutageEvent) (hour : ℕ) (raw : RawStates)
    (pv_norm soc : ℚ) (hrating : 0 ≤ arch.engine_rating_mw) :
    0 ≤ (monitorStep arch mode schedule hour raw pv_norm soc).rem_after_bess ∧
    ((0 < (monitorStep arch mode schedule hour raw pv_norm soc).rem_after_bess ∨
        (monitorStep arch mode schedule hour raw pv_norm soc).online = 0) →
      (monitorStep arch mode schedule hour raw pv_norm soc).pv_gen +
        (monitorStep arch mode schedule hour raw pv_norm soc).bess_dis +
        (monitorStep arch mode schedule hour raw pv_norm soc).chp_out.sum +
        (monitorStep arch mode schedule hour raw pv_norm soc).unserved =
        arch.load_mw) ∧
    ((monitorStep arch mode schedule hour raw pv_norm soc).rem_after_bess = 0 ∧
        (monitorStep arch mode schedule hour raw pv_norm soc).online ≠ 0 →
      (monitorStep arch mode schedule hour raw pv_norm soc).pv_gen +
        (monitorStep arch mode schedule hour raw pv_norm soc).bess_dis +
        (monitorStep arch mode schedule hour raw pv_norm soc).chp_out.sum +
        (monitorStep arch mode schedule hour raw pv_norm soc).unserved =
        arch.load_mw +
          (monitorStep arch mode schedule hour raw pv_norm soc).chp_gen) := by
  set r := monitorStep arch mode schedule hour raw pv_norm soc with hr
  have hremEq := monitorStep_rem_after_bess arch mode schedule hour raw pv_norm soc
  have hperEq := monitorStep_chp_per arch mode schedule hour raw pv_norm soc
  have hgenEq := monitorStep_chp_gen arch mode schedule hour raw pv_norm soc
  have hunsEq := monitorStep_unserved arch mode schedule hour raw pv_norm soc
  have hsum := monitorStep_chp_sum arch mode schedule hour raw pv_norm soc
  have hrem := monitorStep_rem_nonneg arch mode schedule hour raw pv_norm soc
  rw [← hr] at hremEq hperEq hgenEq hunsEq hsum hrem
  refine ⟨hrem, ?_, ?_⟩
  · rintro (hpos | hzero)
    · have hchp_le : r.chp_gen ≤ r.rem_after_bess := by
        rcases Nat.eq_zero_or_pos r.online with h0 | hposn
        · rw [hgenEq, h0]
          simpa using hrem
        · rw [hgenEq, hperEq]
          exact chpPerOf_serving_le _ _ _ (Nat.pos_iff_ne_zero.mp hposn) hpos
      have huns : r.unserved =
          arch.load_mw - (r.pv_gen + r.bess_dis + r.chp_gen) := by
        rw [hunsEq]
        exact max_eq_right (by linarith)
      rw [hsum, huns]
      ring
    · have hgen0 : r.chp_gen = 0 := by
        rw [hgenEq, hperEq, hzero, chpPerOf_zero]
        ring
      have huns : r.unserved =
          arch.load_mw - (r.pv_gen + r.bess_dis + r.chp_gen) := by
        rw [hunsEq]
        exact max_eq_right (by linarith)
      rw [hsum, huns]
      ring
  · rintro ⟨hz, hnz⟩
    have hper : r.chp_per = 0.1 * arch.engine_rating_mw := by
      rw [hperEq]
      exact chpPerOf_idle _ _ _ hnz (by linarith)
    have hgen_nonneg : 0 ≤ r.chp_gen := by
      rw [hgenEq, hper]
      have h01 : (0 : ℚ) ≤ 0.1 := by norm_num
      exact mul_nonneg (mul_nonneg h01 hrating) (Nat.cast_nonneg _)
    have hcovered : arch.load_mw - (r.pv_gen + r.bess_dis) = 0 := by linarith
    have huns0 : r.unserved = 0 := by
      rw [hunsEq]
      exact max_eq_left (by linarith)
    rw [hsum, huns0]
    linarith

/-- A minimal concrete configuration: one 2 MW CHP line, one 2 MW PV block,
a 1 MW load and a degenerate (zero-power) BESS. -/
def arch0 : Arch :=
  { num_lines := 1
    engine_rating_mw := 2
    load_mw := 1
    pv_blocks := 1
    pv_block_rating_mw := 2
    bess_power_mw := 0
    bess_energy_mwh := 0
    bess_pcs_units := 1
    bess_string_groups := 1
    min_lines_required := 1 }

/-- All raw stochastic flags up, matching `arch0`. -/
def rawAllUp1 : RawStates :=
  { line_states := [true]
    pv_states := [true]
    pcs_states := [true]
    string_states := [true]
    swbd_a := true
    swbd_b := true
    gas_main := true
    gas_tank := true }

/-- Full evaluation of one monitor step on the `arch0` fixture at noon
irradiance with an empty schedule. -/
theorem monitorStep_arch0_eval :
    monitorStep arch0 SimMode.random [] 12 rawAllUp1 1 0 =
      { effective_line_states := [true]
        online := 1
        effective_pv_states := [true]
        pv_up := 1
        pv_possible := 2
        pcs_up := 1
        str_up := 1
        bess_pmax := 0
        bess_emax := 0
        soc_clamped := 0
        pv_gen := 1
        bess_dis := 0
        rem_after_bess := 0
        chp_per := 1 / 5
        chp_out := [1 / 5]
        chp_gen := 1 / 5
        bess_ch := 0
        soc_out := 0
        total_power := 6 / 5
        unserved := 0
        path_ok := true
        outage := false
        below_load := false } := by
  simp only [monitorStep, arch0, rawAllUp1, effectiveLineState, effectivePvState,
    effectiveBessCounts, isScheduledOutage, bessPmaxOf, bessEmaxOf, bessDisOf,
    chpPerOf, bessChOf, List.range_succ, List.range_zero]
  norm_num

/-- C1 counterexample: at noon irradiance (`pv_norm = 1`) PV fully covers the
1 MW load, the single up CHP line is logged at the idle output
`0.1 · 2 = 0.2 MW`, and the hour's `pv + bess + chp_logged + unserved` is
`6/5 ≠ 1 = load`. -/
theorem c1_energy_balance_counterexample :
    (monitorStep arch0 SimMode.random [] 12 rawAllUp1 1 0).pv_gen +
      (monitorStep arch0 SimMode.random [] 12 rawAllUp1 1 0).bess_dis +
      (monitorStep arch0 SimMode.random [] 12 rawAllUp1 1 0).chp_out.sum +
      (monitorStep arch0 SimMode.random [] 12 rawAllUp1 1 0).unserved = 6 / 5 ∧
    arch0.load_mw = 1 ∧ (6 / 5 : ℚ) ≠ 1 := by
  refine ⟨?_, rfl, by norm_num⟩
  rw [monitorStep_arch0_eval]
  norm_num

/-- Witness for the amended C1 at the `arch0` configuration. -/
theorem c1_energy_balance_witness :
    (0 ≤ arch0.engine_rating_mw) ∧
    (0 ≤ (monitorStep arch0 SimMode.random [] 12 rawAllUp1 1 0).rem_after_bess ∧
      ((0 < (monitorStep arch0 SimMode.random [] 12 rawAllUp1 1 0).rem_after_bess ∨
          (monitorStep arch0 SimMode.random [] 12 rawAllUp1 1 0).online = 0) →
        (monitorStep arch0 SimMode.random [] 12 rawAllUp1 1 0).pv_gen +
          (monitorStep arch0 SimMode.random [] 12 rawAllUp1 1 0).bess_dis +
          (monitorStep arch0 SimMode.random [] 12 rawAllUp1 1 0).chp_out.sum +
          (monitorStep arch0 SimMode.random [] 12 rawAllUp1 1 0).unserved =
          arch0.load_mw) ∧
      ((monitorStep arch0 SimMode.random [] 12 rawAllUp1 1 0).rem_after_bess = 0 ∧
          (monitorStep arch0 SimMode.random [] 12 rawAllUp1 1 0).online ≠ 0 →
        (monitorStep arch0 SimMode.random [] 12 rawAllUp1 1 0).pv_gen +
          (monitorStep arch0 SimMode.random [] 12 rawAllUp1 1 0).bess_dis +
          (monitorStep arch0 SimMode.random [] 12 rawAllUp1 1 0).chp_out.sum +
          (monitorStep arch0 SimMode.random [] 12 rawAllUp1 1 0).unserved =
          arch0.load_mw +
            (monitorStep arch0 SimMode.random [] 12 rawAllUp1 1 0).chp_gen)) :=
  ⟨by norm_num [arch0],
    c1_energy_balance arch0 SimMode.random [] 12 rawAllUp1 1 0 (by norm_num [arch0])⟩

/-! ### SoC bounds (C2) and the capacity clamp (C9) -/

theorem effectiveBessCounts_str_le (arch : Arch) (mode : SimMode)
    (schedule : List ScheduledOutageEvent) (p s hour : ℕ)
    (hs : s ≤ arch.bess_string_groups) :
    (effectiveBessCounts arch mode schedule p s hour).2 ≤
      max 1 arch.bess_string_groups := by
  unfold effectiveBessCounts
  by_cases hout : isScheduledOutage schedule AssetType.bess 1 hour = true
  · simp only [if_pos hout]
    exact Nat.zero_le _
  · simp only [if_neg hout]
    by_cases hm : mode = SimMode.schedule
    · simp only [if_pos hm]
      exact le_max_right 1 arch.bess_string_groups
    · simp only [if_neg hm]
      exact le_trans hs (le_max_right 1 arch.bess_string_groups)

theorem effectiveBessCounts_outage (arch : Arch) (mode : SimMode)
    (schedule : List ScheduledOutageEvent) (p s hour : ℕ)
    (h : isScheduledOutage schedule AssetType.bess 1 hour = true) :
    effectiveBessCounts arch mode schedule p s hour = (0, 0) := by
  unfold effectiveBessCounts
  rw [if_pos h]

theorem bessEmaxOf_nonneg (arch : Arch) (s : ℕ) (hE : 0 ≤ arch.bess_energy_mwh) :
    0 ≤ bessEmaxOf arch s := by
  unfold bessEmaxOf
  apply mul_nonneg hE
  positivity

theorem bessEmaxOf_zero (arch : Arch) : bessEmaxOf arch 0 = 0 := by
  unfold bessEmaxOf
  simp

theorem bessEmaxOf_le (arch : Arch) (s : ℕ) (hE : 0 ≤ arch.bess_energy_mwh)
    (hs : s ≤ max 1 arch.bess_string_groups) :
    bessEmaxOf arch s ≤ arch.bess_energy_mwh := by
  unfold bessEmaxOf
  have hd : (0 : ℚ) < ((max 1 arch.bess_string_groups : ℕ) : ℚ) := by
    have : 0 < max 1 arch.bess_string_groups := lt_of_lt_of_le Nat.zero_lt_one
      (le_max_left 1 _)
    exact_mod_cast this
  have hratio : ((s : ℕ) : ℚ) / ((max 1 arch.bess_string_groups : ℕ) : ℚ) ≤ 1 := by
    rw [div_le_one hd]
    exact_mod_cast hs
  calc arch.bess_energy_mwh * (((s : ℕ) : ℚ) / ((max 1 arch.bess_string_groups : ℕ) : ℚ))
      ≤ arch.bess_energy_mwh * 1 := mul_le_mul_of_nonneg_left hratio hE
    _ = arch.bess_energy_mwh := mul_one _

/-- One monitor step keeps the state of charge inside
`[0, bess_energy_mwh]`: the entry clamp bounds it by the derated capacity,
discharge is bounded by the clamped SoC, charge by the capacity headroom. -/
theorem monitorStep_soc_bounds (arch : Arch) (mode : SimMode)
    (schedule : List ScheduledOutageEvent) (hour : ℕ) (raw : RawStates)
    (pv_norm soc : ℚ) (hE : 0 ≤ arch.bess_energy_mwh) (hsoc : 0 ≤ soc)
    (hlen : raw.string_states.length ≤ arch.bess_string_groups) :
    0 ≤ (monitorStep arch mode schedule hour raw pv_norm soc).soc_out ∧
      (monitorStep arch mode schedule hour raw pv_norm soc).soc_out ≤
        arch.bess_energy_mwh := by
  set r := monitorStep arch mode schedule hour raw pv_norm soc with hr
  have hstrEq := monitorStep_str_up arch mode schedule hour raw pv_norm soc
  have hemaxEq := monitorStep_bess_emax arch mode schedule hour raw pv_norm soc
  have hclampEq := monitorStep_soc_clamped arch mode schedule hour raw pv_norm soc
  have hdisEq := monitorStep_bess_dis arch mode schedule hour raw pv_norm soc
  have hchEq := monitorStep_bess_ch arch mode schedule hour raw pv_norm soc
  have hsocEq := monitorStep_soc_out arch mode schedule hour raw pv_norm soc
  have hpvEq := monitorStep_pv_gen arch mode schedule hour raw pv_norm soc
  rw [← hr] at hstrEq hemaxEq hclampEq hdisEq hchEq hsocEq hpvEq
  have hstr : r.str_up ≤ max 1 arch.bess_string_groups := by
    rw [hstrEq]
    exact effectiveBessCounts_str_le arch mode schedule _ _ hour
      (le_trans (List.countP_le_length _) hlen)
  have hemax0 : 0 ≤ r.bess_emax := by
    rw [hemaxEq]
    exact bessEmaxOf_nonneg arch _ hE
  have hemaxle : r.bess_emax ≤ arch.bess_energy_mwh := by
    rw [hemaxEq]
    exact bessEmaxOf_le arch _ hE hstr
  have hclamp0 : 0 ≤ r.soc_clamped := by
    rw [hclampEq]
    exact le_min hsoc hemax0
  have hclample : r.soc_clamped ≤ r.bess_emax := by
    rw [hclampEq]
    exact min_le_right _ _
  have hpv : r.pv_gen ≤ arch.load_mw := by
    rw [hpvEq]
    exact min_le_left _ _
  have hdis0 : 0 ≤ r.bess_dis := by
    rw [hdisEq]
    exact bessDisOf_nonneg _ _ _ (by linarith)
  have hdisle : r.bess_dis ≤ r.soc_clamped := by
    rw [hdisEq]
    exact bessDisOf_le_soc1 _ _ _ hclamp0
  have hch0 : 0 ≤ r.bess_ch := by
    rw [hchEq]
    exact bessChOf_nonneg _ _ _ _ (le_max_left 0 _)
  have hhead : (r.soc_clamped - r.bess_dis) + r.bess_ch ≤ r.bess_emax := by
    rw [hchEq]
    exact bessChOf_headroom _ _ _ _ (by linarith)
  constructor
  · rw [hsocEq]
    linarith
  · rw [hsocEq]
    linarith

/-- C2: with the initial SoC `0.5 · bess_energy_mwh`, every entry of the
logged SoC history `bess_soc_hist` stays in `[0, bess_energy_mwh]`, for every
mode, schedule and sequence of hourly inputs (each hour carrying at most
`bess_string_groups` string-group flags, as built by `__init__`). -/
theorem c2_soc_invariant (arch : Arch) (mode : SimMode)
    (schedule : List ScheduledOutageEvent) (inputs : List HourInput)
    (hE : 0 ≤ arch.bess_energy_mwh)
    (hlen : ∀ inp ∈ inputs, inp.raw.string_states.length ≤ arch.bess_string_groups) :
    ∀ s ∈ socTrace arch mode schedule inputs (0.5 * arch.bess_energy_mwh),
      0 ≤ s ∧ s ≤ arch.bess_energy_mwh := by
  have main : ∀ (l : List HourInput) (s0 : ℚ), 0 ≤ s0 →
      (∀ inp ∈ l, inp.raw.string_states.length ≤ arch.bess_string_groups) →
      ∀ s ∈ socTrace arch mode schedule l s0, 0 ≤ s ∧ s ≤ arch.bess_energy_mwh := by
    intro l
    induction l with
    | nil =>
      intro s0 _ _ s hs
      simp [socTrace] at hs
    | cons inp rest ih =>
      intro s0 hs0 hl s hs
      simp only [socTrace] at hs
      have hbounds := monitorStep_soc_bounds arch mode schedule inp.hour inp.raw
        inp.pv_norm s0 hE hs0 (hl inp (List.mem_cons_self inp rest))
      rcases List.mem_cons.mp hs with rfl | htail
      · exact hbounds
      · exact ih _ hbounds.1 (fun i hi => hl i (List.mem_cons_of_mem _ hi)) s htail
  exact main inputs _ (by nlinarith) hlen

/-- The hourly input used by the concrete C2 witness run. -/
def input0 : HourInput := ⟨12, rawAllUp1, 1⟩

theorem socTrace_input0_eval :
    socTrace arch0 SimMode.random [] [input0] (0.5 * arch0.bess_energy_mwh) = [0] := by
  have h : (0.5 : ℚ) * arch0.bess_energy_mwh = 0 := by norm_num [arch0]
  simp only [socTrace, input0, h, monitorStep_arch0_eval]

/-- Witness for C2 on a one-hour run over the `arch0` fixture. -/
theorem c2_soc_invariant_witness :
    (0 ≤ arch0.bess_energy_mwh ∧
      ∀ inp ∈ [input0], inp.raw.string_states.length ≤ arch0.bess_string_groups) ∧
    (0 ≤ (0 : ℚ) ∧ (0 : ℚ) ≤ arch0.bess_energy_mwh) :=
  ⟨⟨by norm_num [arch0], by
      intro inp hinp
      rw [List.mem_singleton] at hinp
      subst hinp
      norm_num [input0, rawAllUp1, arch0]⟩,
    c2_soc_invariant arch0 SimMode.random [] [input0] (by norm_num [arch0])
      (by
        intro inp hinp
        rw [List.mem_singleton] at hinp
        subst hinp
        norm_num [input0, rawAllUp1, arch0]) 0
      (by rw [socTrace_input0_eval]; exact List.mem_singleton.mpr rfl)⟩

/-- C9: at the start of every monitored hour the SoC is clamped down to the
derated capacity `bess_energy_mwh · (str_up / bess_string_groups)` (which is
`0` during a scheduled whole-BESS outage); afterwards the SoC can only fall
by discharge and grow by PV-surplus charging, so the energy removed by the
clamp is discarded — when string groups come back up (a larger `bess_emax`
in a later hour) the SoC is not restored, staying below
`min soc bess_emax + bess_ch`. -/
theorem c9_soc_clamp (arch : Arch) (mode : SimMode)
    (schedule : List ScheduledOutageEvent) (hour : ℕ) (raw : RawStates)
    (pv_norm soc : ℚ) (hsoc : 0 ≤ soc) :
    (monitorStep arch mode schedule hour raw pv_norm soc).soc_clamped =
      min soc (monitorStep arch mode schedule hour raw pv_norm soc).bess_emax ∧
    (isScheduledOutage schedule AssetType.bess 1 hour = true →
      (monitorStep arch mode schedule hour raw pv_norm soc).bess_emax = 0 ∧
      (monitorStep arch mode schedule hour raw pv_norm soc).soc_clamped = 0) ∧
    (monitorStep arch mode schedule hour raw pv_norm soc).soc_out =
      (monitorStep arch mode schedule hour raw pv_norm soc).soc_clamped -
        (monitorStep arch mode schedule hour raw pv_norm soc).bess_dis +
        (monitorStep arch mode schedule hour raw pv_norm soc).bess_ch ∧
    0 ≤ (monitorStep arch mode schedule hour raw pv_norm soc).bess_dis ∧
    (monitorStep arch mode schedule hour raw pv_norm soc).bess_ch ≤
      max 0 ((monitorStep arch mode schedule hour raw pv_norm soc).pv_possible -
        (monitorStep arch mode schedule hour raw pv_norm soc).pv_gen) ∧
    (monitorStep arch mode schedule hour raw pv_norm soc).soc_out ≤
      min soc (monitorStep arch mode schedule hour raw pv_norm soc).bess_emax +
        (monitorStep arch mode schedule hour raw pv_norm soc).bess_ch := by
  set r := monitorStep arch mode schedule hour raw pv_norm soc with hr
  have hstrEq := monitorStep_str_up arch mode schedule hour raw pv_norm soc
  have hemaxEq := monitorStep_bess_emax arch mode schedule hour raw pv_norm soc
  have hclampEq := monitorStep_soc_clamped arch mode schedule hour raw pv_norm soc
  have hdisEq := monitorStep_bess_dis arch mode schedule hour raw pv_norm soc
  have hchEq := monitorStep_bess_ch arch mode schedule hour raw pv_norm soc
  have hsocEq := monitorStep_soc_out arch mode schedule hour raw pv_norm soc
  have hpvEq := monitorStep_pv_gen arch mode schedule hour raw pv_norm soc
  rw [← hr] at hstrEq hemaxEq hclampEq hdisEq hchEq hsocEq hpvEq
  have hpv : r.pv_gen ≤ arch.load_mw := by
    rw [hpvEq]
    exact min_le_left _ _
  have hdis0 : 0 ≤ r.bess_dis := by
    rw [hdisEq]
    exact bessDisOf_nonneg _ _ _ (by linarith)
  refine ⟨hclampEq, ?_, hsocEq, hdis0, ?_, ?_⟩
  · intro hout
    have hemax0 : r.bess_emax = 0 := by
      rw [hemaxEq, hstrEq, effectiveBessCounts_outage arch mode schedule _ _ hour hout]
      exact bessEmaxOf_zero arch
    refine ⟨hemax0, ?_⟩
    rw [hclampEq, hemax0]
    exact min_eq_right hsoc
  · rw [hchEq]
    exact bessChOf_le_surplus _ _ _ _ (le_max_left 0 _)
  · rw [hsocEq, hclampEq]
    linarith

/-- Witness for C9 on the `arch0` fixture. -/
theorem c9_soc_clamp_witness :
    (0 ≤ (0 : ℚ)) ∧
    ((monitorStep arch0 SimMode.random [] 12 rawAllUp1 1 0).soc_clamped =
      min 0 (monitorStep arch0 SimMode.random [] 12 rawAllUp1 1 0).bess_emax ∧
    (isScheduledOutage [] AssetType.bess 1 12 = true →
      (monitorStep arch0 SimMode.random [] 12 rawAllUp1 1 0).bess_emax = 0 ∧
      (monitorStep arch0 SimMode.random [] 12 rawAllUp1 1 0).soc_clamped = 0) ∧
    (monitorStep arch0 SimMode.random [] 12 rawAllUp1 1 0).soc_out =
      (monitorStep arch0 SimMode.random [] 12 rawAllUp1 1 0).soc_clamped -
        (monitorStep arch0 SimMode.random [] 12 rawAllUp1 1 0).bess_dis +
        (monitorStep arch0 SimMode.random [] 12 rawAllUp1 1 0).bess_ch ∧
    0 ≤ (monitorStep arch0 SimMode.random [] 12 rawAllUp1 1 0).bess_dis ∧
    (monitorStep arch0 SimMode.random [] 12 rawAllUp1 1 0).bess_ch ≤
      max 0 ((monitorStep arch0 SimMode.random [] 12 rawAllUp1 1 0).pv_possible -
        (monitorStep arch0 SimMode.random [] 12 rawAllUp1 1 0).pv_gen) ∧
    (monitorStep arch0 SimMode.random [] 12 rawAllUp1 1 0).soc_out ≤
      min 0 (monitorStep arch0 SimMode.random [] 12 rawAllUp1 1 0).bess_emax +
        (monitorStep arch0 SimMode.random [] 12 rawAllUp1 1 0).bess_ch) :=
  ⟨le_rfl, c9_soc_clamp arch0 SimMode.random [] 12 rawAllUp1 1 0 le_rfl⟩

/-! ### Mode/overlay resolution (C5, C6) -/

/-- A schedule event forcing CHP line 1 (display index) down from hour 0 for
5 hours, used to exhibit that `random` mode does not ignore the schedule. -/
def evChpEarly : ScheduledOutageEvent :=
  { asset_type := AssetType.chp
    asset_index := 1
    start_hour := 0
    duration_hours := 5 }

/-- A whole-BESS outage event used in the C5 counterexample. -/
def evBessEarly : ScheduledOutageEvent :=
  { asset_type := AssetType.bess
    asset_index := 1
    start_hour := 0
    duration_hours := 5 }

/-- C5 counterexample: in `random` mode with a schedule event covering hour 2,
CHP line 0 is effectively down although its raw stochastic state is up, and
the effective BESS counts are zeroed — the supplied schedule is NOT ignored. -/
theorem c5_random_ignores_schedule_counterexample :
    effectiveLineState SimMode.random [evChpEarly] true 0 2 ≠ true ∧
    effectiveBessCounts arch0 SimMode.random [evBessEarly] 1 1 2 ≠ (1, 1) := by
  constructor
  · decide
  · intro h
    have : (effectiveBessCounts arch0 SimMode.random [evBessEarly] 1 1 2).1 = 1 := by
      rw [h]
    revert this
    decide

/-- C5 (amended): in `random` mode the effective state equals the raw
stochastic state AND-ed with NOT(matching scheduled outage) — exactly the
`hybrid` resolution; the scheduled-outage overlay is applied in every mode,
so the schedule only has no effect when it is empty. -/
theorem c5_random_mode_overlay (schedule : List ScheduledOutageEvent)
    (b : Bool) (i hour : ℕ) :
    effectiveLineState SimMode.random schedule b i hour =
      (b && !(isScheduledOutage schedule AssetType.chp ((i : ℤ) + 1) hour)) ∧
    effectiveLineState SimMode.random schedule b i hour =
      effectiveLineState SimMode.hybrid schedule b i hour ∧
    effectivePvState SimMode.random schedule b i hour =
      (b && !(isScheduledOutage schedule AssetType.pv ((i : ℤ) + 1) hour)) ∧
    (∀ (arch : Arch) (p s : ℕ),
      effectiveBessCounts arch SimMode.random schedule p s hour =
        if isScheduledOutage schedule AssetType.bess 1 hour then (0, 0)
        else (p, s)) ∧
    (schedule = [] → effectiveLineState SimMode.random schedule b i hour = b) :=
  by
  refine ⟨?_, ?_, ?_, ?_, ?_⟩
  · unfold effectiveLineState
    cases h : isScheduledOutage schedule AssetType.chp ((i : ℤ) + 1) hour <;>
      cases b <;> simp [h]
  · unfold effectiveLineState
    rfl
  · unfold effectivePvState
    cases h : isScheduledOutage schedule AssetType.pv ((i : ℤ) + 1) hour <;>
      cases b <;> simp [h]
  · intro arch p s
    unfold effectiveBessCounts
    rfl
  · intro hempty
    subst hempty
    unfold effectiveLineState isScheduledOutage
    cases b <;> simp

/-- Witness for the amended C5 with an empty schedule at hour 0. -/
theorem c5_random_mode_overlay_witness :
    effectiveLineState SimMode.random [] true 0 0 =
      (true && !(isScheduledOutage [] AssetType.chp ((0 : ℤ) + 1) 0)) ∧
    effectiveLineState SimMode.random [] true 0 0 =
      effectiveLineState SimMode.hybrid [] true 0 0 ∧
    effectivePvState SimMode.random [] true 0 0 =
      (true && !(isScheduledOutage [] AssetType.pv ((0 : ℤ) + 1) 0)) ∧
    (∀ (arch : Arch) (p s : ℕ),
      effectiveBessCounts arch SimMode.random [] p s 0 =
        if isScheduledOutage [] AssetType.bess 1 0 then (0, 0) else (p, s)) ∧
    ([] = ([] : List ScheduledOutageEvent) →
      effectiveLineState SimMode.random [] true 0 0 = true) :=
  c5_random_mode_overlay [] true 0 0

/-- The scenario event of C6: `{asset_type: chp, asset_index: 1,
start_hour: 10, duration_hours: 5}`. -/
def evC6 : ScheduledOutageEvent :=
  { asset_type := AssetType.chp
    asset_index := 1
    start_hour := 10
    duration_hours := 5 }

/-- Characterisation of `_is_scheduled_outage` for a one-event schedule and a
non-BESS asset type. -/
theorem isScheduledOutage_singleton_chp (ev : ScheduledOutageEvent) (di : ℤ)
    (hour : ℕ) :
    isScheduledOutage [ev] AssetType.chp di hour = true ↔
      (ev.asset_type = AssetType.chp ∧ ev.asset_index = di ∧
        0 < ev.duration_hours ∧ ev.start_hour ≤ (hour : ℤ) ∧
        (hour : ℤ) < ev.start_hour + ev.duration_hours) := by
  unfold isScheduledOutage
  simp [List.any_cons, List.any_nil, Bool.and_eq_true, decide_eq_true_eq,
    and_assoc]

/-- C6: in `schedule` mode with the single event of the scenario, CHP line 0
is effectively down exactly at hours 10..14 and up at every other hour,
whatever the raw stochastic state `b`; every other CHP line is always up. -/
theorem c6_schedule_scenario (b : Bool) (hour : ℕ) :
    (effectiveLineState SimMode.schedule [evC6] b 0 hour = false ↔
      10 ≤ hour ∧ hour ≤ 14) ∧
    (∀ (b2 : Bool) (j : ℕ),
      effectiveLineState SimMode.schedule [evC6] b2 (j + 1) hour = true) := by
  constructor
  · have hiff := isScheduledOutage_singleton_chp evC6 (((0 : ℕ) : ℤ) + 1) hour
    unfold effectiveLineState
    cases hb : isScheduledOutage [evC6] AssetType.chp (((0 : ℕ) : ℤ) + 1) hour
    · rw [hb] at hiff
      simp only [Bool.false_eq_true, false_iff] at hiff
      simp [evC6] at hiff
      simp
      omega
    · rw [hb] at hiff
      simp only [true_iff] at hiff
      simp [evC6] at hiff
      simp
      omega
  · intro b2 j
    have hiff := isScheduledOutage_singleton_chp evC6 (((j + 1 : ℕ) : ℤ) + 1) hour
    unfold effectiveLineState
    cases hb : isScheduledOutage [evC6] AssetType.chp (((j + 1 : ℕ) : ℤ) + 1) hour
    · simp
    · rw [hb] at hiff
      simp only [true_iff] at hiff
      simp [evC6] at hiff
      simp
      omega

/-- Witness for C6 at hour 12. -/
theorem c6_schedule_scenario_witness :
    ((effectiveLineState SimMode.schedule [evC6] false 0 12 = false ↔
        10 ≤ 12 ∧ 12 ≤ 14) ∧
      (∀ (b2 : Bool) (j : ℕ),
        effectiveLineState SimMode.schedule [evC6] b2 (j + 1) 12 = true)) ∧
    effectiveLineState SimMode.schedule [evC6] false 0 12 = false :=
  ⟨c6_schedule_scenario false 12,
    (c6_schedule_scenario false 12).1.mpr (by norm_num)⟩

/-! ## Diagnostics (`floral_v1/core/des/des_engine.py`, `compute_diagnostics`)

`compute_diagnostics` is a pure read over the simulation state: the
`history` list of `(online_lines, total_power, pv_gen, bess_dis)` tuples and
the `outage_hours` counter.  The embedding carries the readiness checks, the
window selection, and the `overall` / `load_management` numbers; the BESS-SoC,
per-CHP-engine and infrastructure-snapshot fields of the returned dict are
not quantified over by any claim and are not modelled. -/

/-- The slice of `sim_ps` state that `compute_diagnostics` reads for the
modelled fields. -/
structure DesState where
  history : List (ℕ × ℚ × ℚ × ℚ)
  outage_hours : ℕ
  hours_below_load : ℕ
deriving DecidableEq, Repr

/-- The modelled fields of the dict returned on the ready path. -/
structure DiagReport where
  total_hours_simulated : ℕ
  hours_analysed : ℕ
  from_hour : ℕ
  load_mw : ℚ
  avg_power_mw : ℚ
  fraction_hours_underpowered : ℚ
  availability_overall : ℚ
  hours_underpowered : ℕ
  hours_below_load_metric : ℕ
  total_energy_served_mwh : ℚ
  total_pv_mwh : ℚ
  total_bess_discharge_mwh : ℚ
  pv_share_of_energy : ℚ
  bess_share_of_energy : ℚ
deriving DecidableEq, Repr

/-- Result of `compute_diagnostics`: either a not-ready marker with its
message or the ready report. -/
inductive DiagResult
  | notReady (message : String)
  | ready (report : DiagReport)
deriving DecidableEq, Repr

def msgNotReady : String :=
  "Simulation not initialised or no history recorded yet."

def msgNoEntries : String := "No history entries recorded yet."

/-- The availability a caller reads off a diagnostics result, if ready. -/
def DiagResult.availabilityOf : DiagResult → Option ℚ
  | DiagResult.notReady _ => none
  | DiagResult.ready rep => some rep.availability_overall

/-- Window selection: `start_idx = max(0, n_total - window_hours)` when a
positive window is given, else `0`. -/
def windowStartIdx (n_total : ℕ) (window_hours : Option ℤ) : ℕ :=
  match window_hours with
  | some w => if 0 < w then ((n_total : ℤ) - w).toNat else 0
  | none => 0

/-- `compute_diagnostics(window_hours)`: not-ready on a missing simulation or
empty history, otherwise the windowed aggregates.  Note the availability is
computed from the FULL-RUN `outage_hours` counter over `n_total`, not over
the window. -/
def computeDiagnostics (arch : Arch) (ps : Option DesState)
    (window_hours : Option ℤ) : DiagResult :=
  match ps with
  | none => DiagResult.notReady msgNotReady
  | some st =>
    if st.history.isEmpty then DiagResult.notReady msgNotReady
    else
      let n_total := st.history.length
      if n_total = 0 then DiagResult.notReady msgNoEntries
      else
        let start_idx := windowStartIdx n_total window_hours
        let hist_slice := st.history.drop start_idx
        let n_slice := hist_slice.length
        let load := arch.load_mw
        let total_power_series := hist_slice.map fun f => f.2.1
        let pv_series := hist_slice.map fun f => f.2.2.1
        let bess_dis_series := hist_slice.map fun f => f.2.2.2
        let hours_underpowered :=
          total_power_series.countP fun tp => decide (tp + 1 / 1000000 < load)
        let frac_underpowered :=
          if 0 < n_slice then (hours_underpowered : ℚ) / (n_slice : ℚ) else 0
        let avg_power :=
          if 0 < n_slice then total_power_series.sum / (n_slice : ℚ) else 0
        let total_pv := pv_series.sum
        let total_bess_dis := bess_dis_series.sum
        let total_energy_served := total_power_series.sum
        let pv_share :=
          if 1 / 1000000 < total_energy_served then total_pv / total_energy_served
          else 0
        let bess_share :=
          if 1 / 1000000 < total_energy_served then
            total_bess_dis / total_energy_served
          else 0
        let availability :=
          if 0 < n_total then 1 - (st.outage_hours : ℚ) / (n_total : ℚ) else 1
        DiagResult.ready
          { total_hours_simulated := n_total
            hours_analysed := n_slice
            from_hour := start_idx
            load_mw := load
            avg_power_mw := avg_power
            fraction_hours_underpowered := frac_underpowered
            availability_overall := availability
            hours_underpowered := hours_underpowered
            hours_below_load_metric := st.hours_below_load
            total_energy_served_mwh := total_energy_served
            total_pv_mwh := total_pv
            total_bess_discharge_mwh := total_bess_dis
            pv_share_of_energy := pv_share
            bess_share_of_energy := bess_share }

/-- The overall availability AS THE SPEC WORDS IT for C7 (refinement
reference, not a translation of the code): one minus the outage hours that
fall inside the chosen window divided by the hours in the window.
`outage_flags` is the per-hour ghost record of which hours incremented the
`outage_hours` counter. -/
def windowAvailabilityClaim (outage_flags : List Bool) (n_total : ℕ)
    (window_hours : Option ℤ) : ℚ :=
  let start := windowStartIdx n_total window_hours
  let slice := outage_flags.drop start
  1 - ((slice.countP fun b => b : ℕ) : ℚ) / ((slice.length : ℕ) : ℚ)

/-- A two-hour state: an outage in hour 0, none in hour 1. -/
def st7 : DesState :=
  { history := [(1, 1, 0, 0), (1, 1, 0, 0)]
    outage_hours := 1
    hours_below_load := 0 }

/-- The ghost per-hour outage flags matching `st7`. -/
def flags7 : List Bool := [true, false]

/-- C7 counterexample: for the last-1-hour window over `st7`, the reported
availability is `1 - outage_hours/n_total = 1/2` (full-run counter over full
history), while the spec's windowed formula gives `1 - 0/1 = 1`: the window
argument does not enter the availability computation. -/
theorem c7_window_availability_counterexample :
    (st7.outage_hours = flags7.countP (fun b => b) ∧
      flags7.length = st7.history.length) ∧
    (computeDiagnostics arch0 (some st7) (some 1)).availabilityOf =
      some (1 / 2) ∧
    windowAvailabilityClaim flags7 st7.history.length (some 1) = 1 ∧
    ((1 : ℚ) / 2) ≠ 1 := by
  refine ⟨⟨by simp [st7, flags7], by simp [st7, flags7]⟩, ?_, ?_, by norm_num⟩
  · simp only [computeDiagnostics, st7, DiagResult.availabilityOf]
    norm_num
  · unfold windowAvailabilityClaim windowStartIdx flags7 st7
    norm_num

/-- C7 (amended): on a non-empty history the reported overall availability is
always `1 - outage_hours/total_hours` over the FULL run, whatever window is
requested; it coincides with the spec's windowed formula exactly when the
window is the full history. -/
theorem c7_availability_full_run (arch : Arch) (st : DesState) (w : Option ℤ)
    (hne : st.history ≠ []) :
    ∃ rep, computeDiagnostics arch (some st) w = DiagResult.ready rep ∧
      rep.availability_overall =
        1 - (st.outage_hours : ℚ) / (st.history.length : ℚ) ∧
      (∀ flags : List Bool, st.outage_hours = flags.countP (fun b => b) →
        flags.length = st.history.length →
        rep.availability_overall =
          windowAvailabilityClaim flags st.history.length none) := by
  have hlen : 0 < st.history.length := List.length_pos.mpr hne
  have hempty : st.history.isEmpty = false := by
    simp [List.isEmpty_iff, hne]
  simp only [computeDiagnostics, hempty, Bool.false_eq_true, if_false,
    if_neg (by omega : ¬ st.history.length = 0)]
  refine ⟨_, rfl, ?_, ?_⟩
  · simp only
    rw [if_pos hlen]
  · intro flags hc hf
    simp only
    rw [if_pos hlen]
    unfold windowAvailabilityClaim windowStartIdx
    simp only [List.drop_zero]
    rw [← hc, hf]

/-- Witness for the amended C7 on `st7` with the full-history window. -/
theorem c7_availability_full_run_witness :
    (st7.history ≠ []) ∧
    ∃ rep, computeDiagnostics arch0 (some st7) none = DiagResult.ready rep ∧
      rep.availability_overall =
        1 - (st7.outage_hours : ℚ) / (st7.history.length : ℚ) ∧
      (∀ flags : List Bool, st7.outage_hours = flags.countP (fun b => b) →
        flags.length = st7.history.length →
        rep.availability_overall =
          windowAvailabilityClaim flags st7.history.length none) :=
  ⟨by simp [st7], c7_availability_full_run arch0 st7 none (by simp [st7])⟩

/-- C8: for every window argument, `compute_diagnostics` on an uninitialised
simulation (`sim_ps is None`) or an empty history returns the not-ready
marker — by totality of the embedding it raises nothing. -/
theorem c8_not_ready_on_empty (arch : Arch) (w : Option ℤ) :
    computeDiagnostics arch none w = DiagResult.notReady msgNotReady ∧
    ∀ st : DesState, st.history = [] →
      computeDiagnostics arch (some st) w = DiagResult.notReady msgNotReady := by
  constructor
  · rfl
  · intro st hst
    simp [computeDiagnostics, hst]

/-- The empty simulation state used by the C8 witness. -/
def emptyState : DesState := { history := [], outage_hours := 0, hours_below_load := 0 }

/-- Witness for C8 at a concrete window and state. -/
theorem c8_not_ready_on_empty_witness :
    computeDiagnostics arch0 none (some 24) = DiagResult.notReady msgNotReady ∧
    computeDiagnostics arch0 (some emptyState) (some 24) =
      DiagResult.notReady msgNotReady :=
  ⟨(c8_not_ready_on_empty arch0 (some 24)).1,
    (c8_not_ready_on_empty arch0 (some 24)).2 emptyState rfl⟩

end Floral
